import Mathlib

/-!
Verification development for the Roamio travel-itinerary assistant
(source files Roamio.py and app.py; the two files define the same core
functions, so each core function is embedded once).

Conventions of the embedding:
- Python strings are Lean strings; character-level processing works on
  the list of characters, which matches Python's per-codepoint view.
- The file system holding the saved-trips store is passed explicitly as
  an Option over the parsed store contents: none models a missing file,
  some ts models a file holding the JSON array ts.
- External HTTP or SDK calls are passed in as functions returning
  Except String r: the error case models any exception raised by the
  call (network error, non-success status raised by raise_for_status,
  malformed payload raised by the JSON parser).
- Python sets are modeled as Finset, since list(set(...)) has
  unspecified order.
-/

/-- Characters matched by Python's regex shorthand for whitespace on str
patterns, which is also the set stripped by str.strip: ASCII whitespace,
the file and group separators, next-line, and the Unicode space category. -/
def isSpaceChar (c : Char) : Bool :=
  c = ' ' || c = '\t' || c = '\n' || c = '\r' || c = '\x0b' || c = '\x0c' ||
  c = '\x1c' || c = '\x1d' || c = '\x1e' || c = '\x1f' || c = '\x85' ||
  c = '\xa0' || c = Char.ofNat 0x1680 ||
  (Char.ofNat 0x2000 ≤ c && c ≤ Char.ofNat 0x200a) ||
  c = Char.ofNat 0x2028 || c = Char.ofNat 0x2029 || c = Char.ofNat 0x202f ||
  c = Char.ofNat 0x205f || c = Char.ofNat 0x3000

/-- Characters of the regex character class used by
extract_locations_from_itinerary for the captured run: ASCII letters,
ASCII digits, space, comma, apostrophe, hyphen. -/
def isClassChar (c : Char) : Bool :=
  ('A' ≤ c && c ≤ 'Z') || ('a' ≤ c && c ≤ 'z') || ('0' ≤ c && c ≤ '9') ||
  c = ' ' || c = ',' || c = Char.ofNat 39 || c = '-'

/-- Python str.strip restricted to a character list: drop the whitespace
run at both ends. -/
def pyStripChars (cs : List Char) : List Char :=
  ((cs.dropWhile isSpaceChar).reverse.dropWhile isSpaceChar).reverse

/-- Python str.strip on a string. -/
def pyStrip (s : String) : String :=
  String.mk (pyStripChars s.data)

/-- Python str.split on a single newline character: the list of lines,
where the empty input gives one empty line. -/
def splitOnNewline : List Char → List (List Char)
  | [] => [[]]
  | c :: cs =>
    let rest := splitOnNewline cs
    if c = '\n' then [] :: rest
    else
      match rest with
      | r :: rs => (c :: r) :: rs
      | [] => [[c]]

/-- Whether the first list is a leading segment of the second. -/
def leadsWith : List Char → List Char → Bool
  | [], _ => true
  | _ :: _, [] => false
  | a :: as, b :: bs => a == b && leadsWith as bs

/-- Backtracking match of the regex tail: one-or-more whitespace then the
captured group of one-or-more class characters, both greedy, returning the
text of the captured group on success.  The greedy whitespace run backs
off when no class character follows it, which matters because the space
character is both whitespace and a class character. -/
def matchSpacesThenClass : List Char → Option (List Char)
  | [] => none
  | c :: cs =>
    if isSpaceChar c then
      match matchSpacesThenClass cs with
      | some g => some g
      | none =>
        match cs with
        | [] => none
        | c2 :: cs2 =>
          if isClassChar c2 then some (c2 :: cs2.takeWhile isClassChar) else none
    else none

/-- The six trigger phrases of the extraction regex, in alternation order. -/
def triggerPhrases : List (List Char) :=
  ["Visit".data, "Stay at".data, "Hotel".data, "Restaurant".data,
   "Explore".data, "Check-in at".data]

/-- Attempt the whole pattern at the current position: some trigger phrase
literally, then whitespace, then the captured class run.  The trigger
phrases start with pairwise distinct letters, so trying them in alternation
order matches the regex engine. -/
def tryTriggersAt (cs : List Char) : Option (List Char) :=
  triggerPhrases.findSome? fun t =>
    if leadsWith t cs then matchSpacesThenClass (cs.drop t.length) else none

/-- re.search over one line: try the pattern at each position from the left
and return the first captured group found. -/
def searchLine : List Char → Option (List Char)
  | [] => none
  | c :: cs =>
    match tryTriggersAt (c :: cs) with
    | some g => some g
    | none => searchLine cs

/-- The candidate a single line contributes: the captured group, stripped,
kept only when its stripped length exceeds 2. -/
def lineCandidate (line : List Char) : Option String :=
  match searchLine line with
  | none => none
  | some g =>
    let loc := pyStripChars g
    if 2 < loc.length then some (String.mk loc) else none

/-- The loop body of extract_locations_from_itinerary: add the candidate
of one line, if any, to the accumulated set. -/
def addLineCandidate (locations : Finset String) (line : List Char) : Finset String :=
  match lineCandidate line with
  | some loc => insert loc locations
  | none => locations

/-- extract_locations_from_itinerary from Roamio.py lines 85 to 93: split
the itinerary text into lines, per line search for a trigger phrase
followed by whitespace and a run of class characters, strip the captured
run, keep it when longer than 2 characters, and collect the results as a
set. -/
def extract_locations_from_itinerary (itinerary_text : String) : Finset String :=
  (splitOnNewline itinerary_text.data).foldl addLineCandidate ∅

/-- A saved trip, matching the dictionary stored by the app on a save
action: origin, destination, day count, budget tier, traveler type,
interest tags, generation timestamp, and the generated itinerary text.
The timestamp, a float from time.time in the source, is modeled as a
rational since the store only passes it through. -/
structure TripRecord where
  fromLoc : String
  destination : String
  days : Int
  budget : String
  pax : String
  interests : List String
  generated_at : ℚ
  itinerary_text : String
  deriving DecidableEq

/-- The saved-trips file: none when the file does not exist, some ts when
it exists and parses as the list ts. -/
abbrev TripsFile := Option (List TripRecord)

/-- ensure_saved_trips_file from Roamio.py lines 19 to 22: when the file
does not exist, create it holding an empty JSON array; otherwise leave it
unchanged. -/
def ensure_saved_trips_file (fs : TripsFile) : TripsFile :=
  match fs with
  | none => some []
  | some ts => some ts

/-- load_saved_trips from Roamio.py lines 24 to 27: ensure the file
exists, then read and parse it, returning the parsed list and the file
state after the call.  After ensure_saved_trips_file the file always
exists, so the default of the read is never taken. -/
def load_saved_trips (fs : TripsFile) : List TripRecord × TripsFile :=
  let fs2 := ensure_saved_trips_file fs
  (fs2.getD [], fs2)

/-- save_trip from Roamio.py lines 29 to 33: load the full current list,
append the new trip at the end, and write the whole list back, fully
overwriting the prior contents. -/
def save_trip (fs : TripsFile) (trip : TripRecord) : TripsFile :=
  let trips := (load_saved_trips fs).1
  some (trips ++ [trip])

/-- build_itinerary_prompt from Roamio.py lines 74 to 83: a fixed template
over the trip parameters; an empty interests list is falsy in Python, so
it is replaced by the phrase general sightseeing. -/
def build_itinerary_prompt (destination : String) (days : Int) (budget : String)
    (pax : String) (interests : List String) : String :=
  let interests_txt :=
    match interests with
    | [] => "general sightseeing"
    | _ :: _ => String.intercalate ", " interests
  "Create a " ++ toString days ++ "-day travel itinerary for " ++ pax ++
    " traveling to " ++ destination ++ ". " ++
    "Budget: " ++ budget ++ ". Interests: " ++ interests_txt ++ ". " ++
    "For each day: morning/afternoon/evening plan, costs, transport, and 3 restaurants. " ++
    "Suggest Stays with images & Google Maps links. " ++
    "Suggest Restaurants with images & Google Maps links. " ++
    "Add a packing tip for local climate. Keep it concise and friendly."

/-- generate_itinerary_gemini from Roamio.py lines 35 to 42.  The module
constant GEMINI_MODEL is passed as an Option, none meaning the API key was
empty so no model was configured; the external generate_content call plus
the response text accessor is passed as a function whose error case is any
exception it raises.  On a missing model the sentinel configuration error
string is returned; on success the response text is stripped; on an
exception its message is embedded in a readable error string. -/
def generate_itinerary_gemini (gemini_model : Option Unit)
    (generate_content : String → Except String String) (prompt : String) : String :=
  match gemini_model with
  | none => "ERROR: GOOGLE_API_KEY not set."
  | some _ =>
    match generate_content prompt with
    | .ok text => pyStrip text
    | .error e => "Gemini error: " ++ e

/-- One photo entry of a raw places-backend result item; the photo
reference may be absent. -/
structure RawPhoto where
  photo_reference : Option String
  deriving DecidableEq

/-- One raw result item of the places backend, holding exactly the fields
the source reads: display name, formatted address, rating, photo list,
place identifier, price level, and category tags.  A field read with
item.get is an Option; the photo list and the category tags are read with
a default of an empty list, which an absent field collapses to.  The
rating, a JSON number only passed through, is modeled as a rational. -/
structure RawItem where
  name : Option String
  formatted_address : Option String
  rating : Option ℚ
  photos : List RawPhoto
  place_id : Option String
  price_level : Option Int
  types : List String
  deriving DecidableEq

/-- The parsed JSON body of a places-backend response; the results field
is read with a default of an empty list. -/
structure RawResponse where
  results : List RawItem
  deriving DecidableEq

/-- A place record built by fetch_places_google. -/
structure PlaceResult where
  name : String
  address : Option String
  rating : Option ℚ
  photo : Option String
  maps_url : String
  deriving DecidableEq

/-- A place record built by fetch_place_details: the search fields plus
the category tags as description and the derived price tier. -/
structure PlaceDetails where
  name : String
  address : Option String
  rating : Option ℚ
  photo : Option String
  maps_url : String
  description : List String
  price : String
  deriving DecidableEq

/-- The photo URL both lookup functions build: absent when the photo list
is absent or empty, else assembled from the first photo reference by an
f-string, which renders an absent reference as the text None. -/
def place_photo_url (key : String) (photos : List RawPhoto) : Option String :=
  match photos with
  | [] => none
  | p :: _ =>
    some ("https://maps.googleapis.com/maps/api/place/photo?maxwidth=400&photoreference="
      ++ (match p.photo_reference with | some r => r | none => "None")
      ++ "&key=" ++ key)

/-- The maps URL both lookup functions build from the display name, spaces
replaced by plus signs, and the place identifier defaulted to empty. -/
def place_maps_url (nm : String) (place_id : Option String) : String :=
  "https://www.google.com/maps/search/?api=1&query=" ++ nm.replace " " "+"
    ++ "&query_place_id=" ++ place_id.getD ""

/-- The record fetch_places_google appends for one raw item.  When the
display name is absent, the replace call on None raises inside the try
block, so the mapping has no result and the caller returns empty. -/
def map_search_item (key : String) (item : RawItem) : Option PlaceResult :=
  match item.name with
  | none => none
  | some nm =>
    some { name := nm
           address := item.formatted_address
           rating := item.rating
           photo := place_photo_url key item.photos
           maps_url := place_maps_url nm item.place_id }

/-- fetch_places_google from Roamio.py lines 44 to 72.  The hardcoded maps
API key of the source is passed as the key argument; the HTTP call chain,
query string to parsed body, is the backend argument, whose error case is
any exception raised by the request, the status check, or the JSON parse.
An empty key returns empty without calling the backend.  Otherwise up to
count leading result items are mapped; an exception while mapping, or from
the backend, is caught and an empty list returned. -/
def fetch_places_google (key destination place_type : String) (count : Nat)
    (backend : String → Except String RawResponse) : List PlaceResult :=
  if key = "" then []
  else
    match backend ("top " ++ place_type ++ " in " ++ destination) with
    | .error _ => []
    | .ok data =>
      match (data.results.take count).mapM (map_search_item key) with
      | some results => results
      | none => []

/-- The price tier string fetch_place_details derives from the raw price
level with a dictionary lookup defaulted to the empty string. -/
def price_desc (price_level : Option Int) : String :=
  match price_level with
  | none => ""
  | some n =>
    if n = 1 then "Budget"
    else if n = 2 then "Moderate"
    else if n = 3 then "Expensive"
    else if n = 4 then "Luxury"
    else ""

/-- fetch_place_details from Roamio.py lines 95 to 123.  The module API
key is the key argument and the HTTP call chain is the backend argument as
in fetch_places_google.  An empty or absent results list falls through to
None; otherwise only the first item is used; an absent display name makes
the replace call raise inside the try block, caught as None. -/
def fetch_place_details (key name destination : String)
    (backend : String → Except String RawResponse) : Option PlaceDetails :=
  match backend (name ++ " in " ++ destination) with
  | .error _ => none
  | .ok data =>
    match data.results with
    | [] => none
    | item :: _ =>
      match item.name with
      | none => none
      | some nm =>
        some { name := nm
               address := item.formatted_address
               rating := item.rating
               photo := place_photo_url key item.photos
               maps_url := place_maps_url nm item.place_id
               description := item.types
               price := price_desc item.price_level }

/-! Helper lemmas shared by the theorems below. -/

/-- String concatenation is associative, via the underlying lists. -/
theorem string_append_assoc (a b c : String) : a ++ b ++ c = a ++ (b ++ c) := by
  apply String.ext
  simp

/-- Appending records one at a time onto a store that holds acc leaves the
store holding acc followed by the appended records, in order. -/
theorem trips_foldl_save (rs acc : List TripRecord) :
    List.foldl save_trip (some acc) rs = some (acc ++ rs) := by
  induction rs generalizing acc with
  | nil => simp
  | cons r rs ih =>
    have hstep : save_trip (some acc) r = some (acc ++ [r]) := rfl
    simp only [List.foldl, hstep, ih]
    simp

/-- The fold building the extracted location set grows its cardinality by
at most one per line. -/
theorem extract_fold_card_le (lines : List (List Char)) (acc : Finset String) :
    (lines.foldl addLineCandidate acc).card ≤ acc.card + lines.length := by
  induction lines generalizing acc with
  | nil => simp
  | cons l ls ih =>
    have hstep : (addLineCandidate acc l).card ≤ acc.card + 1 := by
      cases h : lineCandidate l with
      | none => simp [addLineCandidate, h]
      | some loc => simpa [addLineCandidate, h] using Finset.card_insert_le loc acc
    have h2 := ih (addLineCandidate acc l)
    simp only [List.foldl, List.length_cons]
    omega

/-- Sample raw item used to witness the price-tier theorem. -/
def sampleItem : RawItem :=
  { name := some "Taj Mahal Palace"
    formatted_address := some "Apollo Bunder, Mumbai"
    rating := some 5
    photos := []
    place_id := some "pid1"
    price_level := some 4
    types := ["lodging"] }

/-- Sample by-name backend used to witness the price-tier theorem. -/
def sampleDetailsBackend : String → Except String RawResponse :=
  fun _ => .ok { results := [sampleItem] }

/-- Sample failing text-generation call used to witness the generator
theorem. -/
def failingGenerate : String → Except String String :=
  fun _ => .error "quota exceeded"

/-- Sample failing places backend used to witness the place-lookup
failure theorem. -/
def failingPlacesBackend : String → Except String RawResponse :=
  fun _ => .error "HTTP 500"

/-- Claim C1, counterexample: on the single-line itinerary text
Day 1: Visit Bahu Fort. the extractor does not return the set holding
Bahu Fort followed by a period, contrary to the stated expectation. -/
theorem extract_bahu_fort_ne_dotted :
    extract_locations_from_itinerary "Day 1: Visit Bahu Fort." ≠ {"Bahu Fort."} := by
  decide

/-- Claim C1, amended: on the single-line itinerary text
Day 1: Visit Bahu Fort. the extractor returns exactly the one-element set
holding Bahu Fort without the trailing period, because the period is
outside the captured character class, so the match stops before it; no
trimming of trailing punctuation is involved. -/
theorem extract_bahu_fort_eq :
    extract_locations_from_itinerary "Day 1: Visit Bahu Fort." = {"Bahu Fort"} := by
  decide

/-- Claim C2: starting from an empty store, file present and holding an
empty array or file absent, appending each record of rs in order with
save_trip and then loading returns exactly rs, every record unchanged and
in append order. -/
theorem trip_store_round_trip (rs : List TripRecord) :
    (load_saved_trips (List.foldl save_trip (some []) rs)).1 = rs ∧
    (load_saved_trips (List.foldl save_trip none rs)).1 = rs := by
  constructor
  · rw [trips_foldl_save]
    simp [load_saved_trips, ensure_saved_trips_file]
  · cases rs with
    | nil => rfl
    | cons r rs =>
      have h0 : save_trip none r = some ([] ++ [r]) := rfl
      simp only [List.foldl, h0, trips_foldl_save]
      simp [load_saved_trips, ensure_saved_trips_file]

/-- Claim C3: when the by-name lookup receives a successful response whose
first item carries a display name, it returns a place record whose price
field is exactly price_desc of the raw price level, and price_desc maps
level 1 to Budget, 2 to Moderate, 3 to Expensive, 4 to Luxury, an absent
level to the empty string, and any other level n to the empty string. -/
theorem fetch_place_details_price_tier (key name destination nm : String)
    (item : RawItem) (n : Int)
    (backend : String → Except String RawResponse)
    (hnm : item.name = some nm)
    (hb : backend (name ++ " in " ++ destination) = .ok { results := [item] })
    (hn1 : n ≠ 1) (hn2 : n ≠ 2) (hn3 : n ≠ 3) (hn4 : n ≠ 4) :
    fetch_place_details key name destination backend =
      some { name := nm
             address := item.formatted_address
             rating := item.rating
             photo := place_photo_url key item.photos
             maps_url := place_maps_url nm item.place_id
             description := item.types
             price := price_desc item.price_level } ∧
    price_desc (some 1) = "Budget" ∧ price_desc (some 2) = "Moderate" ∧
    price_desc (some 3) = "Expensive" ∧ price_desc (some 4) = "Luxury" ∧
    price_desc none = "" ∧ price_desc (some n) = "" := by
  refine ⟨?_, rfl, rfl, rfl, rfl, rfl, ?_⟩
  · unfold fetch_place_details
    rw [hb]
    simp [hnm]
  · simp [price_desc, hn1, hn2, hn3, hn4]

/-- Claim C3 witness: the price-tier theorem applied at a concrete item of
price level 4 and at the undefined level 0. -/
theorem fetch_place_details_price_tier_witness :
    sampleItem.name = some "Taj Mahal Palace" ∧
    sampleDetailsBackend ("Taj" ++ " in " ++ "Agra") = .ok { results := [sampleItem] } ∧
    (fetch_place_details "K" "Taj" "Agra" sampleDetailsBackend =
      some { name := "Taj Mahal Palace"
             address := sampleItem.formatted_address
             rating := sampleItem.rating
             photo := place_photo_url "K" sampleItem.photos
             maps_url := place_maps_url "Taj Mahal Palace" sampleItem.place_id
             description := sampleItem.types
             price := price_desc sampleItem.price_level } ∧
      price_desc (some 1) = "Budget" ∧ price_desc (some 2) = "Moderate" ∧
      price_desc (some 3) = "Expensive" ∧ price_desc (some 4) = "Luxury" ∧
      price_desc none = "" ∧ price_desc (some 0) = "") :=
  ⟨rfl, rfl,
    fetch_place_details_price_tier "K" "Taj" "Agra" "Taj Mahal Palace" sampleItem 0
      sampleDetailsBackend rfl rfl
      (by decide) (by decide) (by decide) (by decide)⟩

/-- Claim C4: the itinerary generator is a total function of its inputs;
with no configured model it returns the sentinel configuration error
string, and when the external call raises it returns a readable error
string embedding the message instead of propagating the exception. -/
theorem generate_itinerary_never_raises
    (generate_content : String → Except String String) (prompt e : String)
    (h : generate_content prompt = .error e) :
    generate_itinerary_gemini none generate_content prompt =
      "ERROR: GOOGLE_API_KEY not set." ∧
    generate_itinerary_gemini (some ()) generate_content prompt =
      "Gemini error: " ++ e := by
  exact ⟨rfl, by simp [generate_itinerary_gemini, h]⟩

/-- Claim C4 witness: the generator theorem applied to a concrete failing
call. -/
theorem generate_itinerary_never_raises_witness :
    failingGenerate "plan a trip" = .error "quota exceeded" ∧
    (generate_itinerary_gemini none failingGenerate "plan a trip" =
      "ERROR: GOOGLE_API_KEY not set." ∧
    generate_itinerary_gemini (some ()) failingGenerate "plan a trip" =
      "Gemini error: " ++ "quota exceeded") :=
  ⟨rfl, generate_itinerary_never_raises failingGenerate "plan a trip" "quota exceeded" rfl⟩

/-- Claim C5: when the places backend raises on the bulk query and on the
by-name query, the bulk search returns the empty list and the by-name
search returns none; both operations are total, so no exception escapes
the lookup boundary. -/
theorem place_lookup_backend_failure (key destination place_type name : String)
    (count : Nat) (e1 e2 : String)
    (backend : String → Except String RawResponse)
    (h1 : backend ("top " ++ place_type ++ " in " ++ destination) = .error e1)
    (h2 : backend (name ++ " in " ++ destination) = .error e2) :
    fetch_places_google key destination place_type count backend = [] ∧
    fetch_place_details key name destination backend = none := by
  constructor
  · unfold fetch_places_google
    rw [h1]
    simp
  · unfold fetch_place_details
    rw [h2]

/-- Claim C5 witness: the failure theorem applied to a concrete backend
that raises an HTTP error on every query. -/
theorem place_lookup_backend_failure_witness :
    failingPlacesBackend ("top " ++ "tourist_attraction" ++ " in " ++ "Jammu, India") =
      .error "HTTP 500" ∧
    failingPlacesBackend ("Bahu Fort" ++ " in " ++ "Jammu, India") = .error "HTTP 500" ∧
    (fetch_places_google "K" "Jammu, India" "tourist_attraction" 6 failingPlacesBackend = [] ∧
    fetch_place_details "K" "Bahu Fort" "Jammu, India" failingPlacesBackend = none) :=
  ⟨rfl, rfl,
    place_lookup_backend_failure "K" "Jammu, India" "tourist_attraction" "Bahu Fort" 6
      "HTTP 500" "HTTP 500" failingPlacesBackend rfl rfl⟩

/-- Claim C6: for every destination, day count, budget, and traveler type,
the prompt built from an empty interests list contains the literal phrase
general sightseeing. -/
theorem build_prompt_empty_interests (destination : String) (days : Int)
    (budget pax : String) :
    ∃ a b, build_itinerary_prompt destination days budget pax [] =
      a ++ "general sightseeing" ++ b := by
  refine ⟨"Create a " ++ toString days ++ "-day travel itinerary for " ++ pax ++
      " traveling to " ++ destination ++ ". " ++ "Budget: " ++ budget ++ ". Interests: ",
    ". " ++ "For each day: morning/afternoon/evening plan, costs, transport, and 3 restaurants. " ++
      "Suggest Stays with images & Google Maps links. " ++
      "Suggest Restaurants with images & Google Maps links. " ++
      "Add a packing tip for local climate. Keep it concise and friendly.", ?_⟩
  simp only [build_itinerary_prompt, string_append_assoc]

/-- Claim C7: loading when no store file exists returns the empty sequence
and leaves the store materialized as an empty array, and a second load on
the resulting state returns the empty sequence again. -/
theorem load_missing_store :
    load_saved_trips none = ([], some []) ∧
    (load_saved_trips (load_saved_trips none).2).1 = ([] : List TripRecord) :=
  ⟨rfl, rfl⟩

/-- Claim C8: whenever the per-line search captures a group, the line
contributes a candidate exactly when the stripped group is longer than 2
characters, the candidate being the stripped group itself; a stripped
group of 2 or fewer characters contributes nothing. -/
theorem extract_length_filter (line g : List Char)
    (h : searchLine line = some g) :
    lineCandidate line =
      if 2 < (pyStripChars g).length then some (String.mk (pyStripChars g))
      else none := by
  unfold lineCandidate
  rw [h]

/-- Claim C8 witness: the length-filter theorem applied to the line
Visit AB, whose captured group strips to 2 characters and is rejected, and
to the line Visit ABC, whose captured group strips to 3 characters and is
accepted. -/
theorem extract_length_filter_witness :
    (searchLine "Visit AB".data = some "AB".data ∧
      lineCandidate "Visit AB".data = none) ∧
    (searchLine "Visit ABC".data = some "ABC".data ∧
      lineCandidate "Visit ABC".data = some "ABC") := by
  refine ⟨⟨by decide, ?_⟩, ⟨by decide, ?_⟩⟩
  · rw [extract_length_filter "Visit AB".data "AB".data (by decide)]
    decide
  · rw [extract_length_filter "Visit ABC".data "ABC".data (by decide)]
    decide

/-- Claim C9: the extractor contributes at most one candidate per input
line, so the returned set never has more elements than the input has
lines; on a line holding two trigger phrases only the first match is
taken, as the concrete two-trigger line shows. -/
theorem extract_at_most_one_per_line (text : String) :
    (extract_locations_from_itinerary text).card ≤
      (splitOnNewline text.data).length ∧
    extract_locations_from_itinerary "Visit Alpha and Explore Beta" =
      {"Alpha and Explore Beta"} := by
  constructor
  · have h := extract_fold_card_le (splitOnNewline text.data) ∅
    simpa [extract_locations_from_itinerary] using h
  · decide

/-- Claim C10: trigger matching is case-sensitive: a line holding the
trigger word only in lowercase or only in uppercase yields no candidate,
while the same line with the trigger word in its exact case yields one. -/
theorem extract_case_sensitive :
    extract_locations_from_itinerary "visit Red Fort" = ∅ ∧
    extract_locations_from_itinerary "VISIT Red Fort" = ∅ ∧
    extract_locations_from_itinerary "Visit Red Fort" = {"Red Fort"} :=
  ⟨by decide, by decide, by decide⟩
